import Mathlib

/-!
Shallow embedding of the ts-gameboy emulator core (src/src/js) together with
theorems settling the frozen claims about it.  Each definition translates one
function of the TypeScript source; the relevant file and line numbers are noted
in the doc comments.  JavaScript numbers are embedded as `Nat` (all the values
reached here are non-negative), with `& 0xFF` rendered as `% 256`, `& 0xF` as
`% 16`, and so on; bitwise operators on bytes use `Nat.land` / `Nat.lor` /
`Nat.shiftLeft` / `Nat.shiftRight`.
-/

/-- The four CPU flags, each stored as a JavaScript number 0 or 1 exactly as in
the source class `CPUFlags` (CPUFlags.ts). -/
structure CPUFlags where
  zero : Nat
  subtraction : Nat
  halfCarry : Nat
  carry : Nat
deriving Repr, DecidableEq

/-- The `uint8` constructor (src/src/js/uint8.ts lines 4-6): it stores the
given number WITHOUT masking (only the `value` setter masks with `& 0xFF`). -/
def uint8New (v : Nat) : Nat := v

/-- The `uint8` value setter (src/src/js/uint8.ts lines 12-14): masks with
`& 0xFF`. -/
def uint8Set (v : Nat) : Nat := v % 256

/-- The `uint16` constructor in the final revision of uint16.ts (lines 27-29):
masks with `& 0xFFFF`. -/
def uint16New (v : Nat) : Nat := v % 65536

/-- `CPU.add` (src/src/js/CPU.ts lines 53-80).  Takes the current flags and the
two operands, returns the updated flags together with the number stored in the
destination (the `_value` of the freshly constructed `uint8`/`uint16`, which
the constructor does NOT mask). -/
def CPU.add (f : CPUFlags) (a b : Nat) (is8Bit includeCarry : Bool) :
    CPUFlags × Nat :=
  let result := a + b + (if includeCarry then f.carry else 0)
  let halfCarry :=
    if is8Bit then
      if includeCarry then
        if (a % 16) + (b % 16) + f.carry > 0xF then 1 else 0
      else
        if result % 16 < a % 16 then 1 else 0
    else
      if a % 4096 > result % 4096 then 1 else 0
  let carry :=
    if (is8Bit && result > 0xFF) || (!is8Bit && result > 0xFFFF) then 1 else 0
  let finalResult := if is8Bit then uint8New result else uint16New result
  let zeroFlag := if finalResult = 0 then 1 else 0
  (⟨zeroFlag, 0, halfCarry, carry⟩, finalResult)

/-- The slice of CPU state touched by opcode 0x80 (`ADD A, B`): the two 8-bit
registers, the flags, the program counter and the cycle counter. -/
structure ArithState where
  a : Nat
  b : Nat
  flags : CPUFlags
  pc : Nat
  cycles : Nat
deriving Repr, DecidableEq

/-- Opcode handler `ops['80']` (`ADD A, B`, src/src/js/CPU.ts lines 448-453):
`this.registers.a.value = this.add(A, B, true, false)`, one cycle, PC+1. -/
def CPU.op80 (s : ArithState) : ArithState :=
  let r := CPU.add s.flags s.a s.b true false
  { s with a := r.2, flags := r.1, pc := (s.pc + 1) % 65536,
           cycles := s.cycles + 1 }

/-- The `CPUFlags` value setter (src/unnamed/part_001 lines 20-25): each flag
is `(val << k) & 1` for k = 7, 6, 5, 4 — note the LEFT shifts, so the low bit
of every shifted value is 0. -/
def CPUFlags.setValue (v : Nat) : CPUFlags :=
  { zero := (v <<< 7) &&& 1
    subtraction := (v <<< 6) &&& 1
    halfCarry := (v <<< 5) &&& 1
    carry := (v <<< 4) &&& 1 }

/-- The `CPUFlags` value getter (src/unnamed/part_001 lines 27-34): packs the
truthiness of the four flags into bits 7, 6, 5, 4. -/
def CPUFlags.value (f : CPUFlags) : Nat :=
  (if f.zero ≠ 0 then 0x80 else 0) |||
  (if f.subtraction ≠ 0 then 0x40 else 0) |||
  (if f.halfCarry ≠ 0 then 0x20 else 0) |||
  (if f.carry ≠ 0 then 0x10 else 0)

/-- Claim C1 (code-bug exhibit).  Executing ADD A,B (opcode 0x80) with A=0x3A,
B=0xC6 leaves the destination register holding 0x100 — the unwrapped sum,
because the `uint8` constructor used for the result does not mask — and the Z
flag clear, since the zero test compares the unwrapped value with 0.  The
claim requires A = 0x00 and Z = 1.  (N = 0, H = 1, C = 1 do match the claim.) -/
theorem C1_add_result_unmasked :
    (CPU.op80 ⟨0x3A, 0xC6, ⟨0, 0, 0, 0⟩, 0x0100, 0⟩).a = 0x100 ∧
    (CPU.op80 ⟨0x3A, 0xC6, ⟨0, 0, 0, 0⟩, 0x0100, 0⟩).flags.zero = 0 ∧
    (CPU.op80 ⟨0x3A, 0xC6, ⟨0, 0, 0, 0⟩, 0x0100, 0⟩).flags.subtraction = 0 ∧
    (CPU.op80 ⟨0x3A, 0xC6, ⟨0, 0, 0, 0⟩, 0x0100, 0⟩).flags.halfCarry = 1 ∧
    (CPU.op80 ⟨0x3A, 0xC6, ⟨0, 0, 0, 0⟩, 0x0100, 0⟩).flags.carry = 1 := by
  decide

/-- Claim C2 (code-bug exhibit).  Writing 0xF0 to the flag register F (as POP
AF does via `this.flags.value = this.pop8()`) leaves every flag 0, because the
setter computes `(v << k) & 1` instead of `(v >> k) & 1`; a subsequent read of
F therefore returns 0x00, not 0xF0.  The claim requires Z=1, N=1, H=1, C=1 and
a read-back of 0xF0. -/
theorem C2_flag_setter_zeroes :
    CPUFlags.setValue 0xF0 = ⟨0, 0, 0, 0⟩ ∧
    (CPUFlags.setValue 0xF0).value = 0 := by
  decide

/-- Pointwise update of a byte store, the meaning of `source[addr] = v` on a
plain JavaScript array of numbers. -/
def setMem (m : Nat → Nat) (a v : Nat) : Nat → Nat :=
  fun x => if x = a then v else m x

/-- The machine state touched by the interrupt ladder of `Gameboy.frame`
(src/src/js/Gameboy.ts lines 89-116) and by `CPU.rst` (CPU.ts lines 380-387).
`mem` is the flat byte store reached through `Memory.w16` (the stack lies in
plain-byte regions, where `write16` stores low byte at the address and high
byte at the address + 1). -/
structure LadderState where
  ime : Nat
  halt : Nat
  ie : Nat
  ifReg : Nat
  pc : Nat
  sp : Nat
  mem : Nat → Nat
  cycles : Nat

/-- `CPU.rst` (src/src/js/CPU.ts lines 380-387): `pc.inc()` (move past the
current byte), `sp.dec(2)`, `w16(sp, pc)` (little endian), unconditional jump
to `addr`, 4 cycles. -/
def CPU.rst (s : LadderState) (addr : Nat) : LadderState :=
  let pc1 := (s.pc + 1) % 65536
  let sp1 := (s.sp + 65536 - 2) % 65536
  let mem1 := setMem (setMem s.mem sp1 (pc1 % 256)) (sp1 + 1) (pc1 / 256)
  { s with pc := addr % 65536, sp := sp1, mem := mem1,
           cycles := s.cycles + 4 }

/-- The interrupt ladder of `Gameboy.frame` (src/src/js/Gameboy.ts lines
89-116).  The JavaScript gate is `this.CPU.ime && this.Memory.ie &&
this.Memory.if`; `ie` and `if` are uint8 OBJECTS and hence always truthy, so
only `ime` is actually tested.  Inside: clear `halt`, clear `ime`, mask
`ie & if`, walk bits 0..4 in order, clear the chosen bit in IF and `rst` to
the matching vector; with no armed bit, restore `ime = 1`. -/
def interruptLadder (s : LadderState) : LadderState :=
  if s.ime = 0 then s
  else
    let s1 := { s with halt := 0, ime := 0 }
    let fired := s.ie &&& s.ifReg
    if fired &&& 1 ≠ 0 then CPU.rst { s1 with ifReg := s1.ifReg &&& 0xFE } 0x40
    else if fired &&& 2 ≠ 0 then
      CPU.rst { s1 with ifReg := s1.ifReg &&& 0xFD } 0x48
    else if fired &&& 4 ≠ 0 then
      CPU.rst { s1 with ifReg := s1.ifReg &&& 0xFB } 0x50
    else if fired &&& 8 ≠ 0 then
      CPU.rst { s1 with ifReg := s1.ifReg &&& 0xF7 } 0x58
    else if fired &&& 16 ≠ 0 then
      CPU.rst { s1 with ifReg := s1.ifReg &&& 0xEF } 0x60
    else { s1 with ime := 1 }

/-- The state between two instructions used for the C3 exhibit: IME set, IE =
IF = 1 (V-blank armed), PC = 0x0150 (already the address of the next
instruction to execute), SP = 0xFFFE, empty memory. -/
def c3state : LadderState :=
  ⟨1, 0, 1, 1, 0x0150, 0xFFFE, fun _ => 0, 0⟩

/-- Claim C3 (code-bug exhibit).  Dispatching the armed V-blank interrupt from
`c3state` does clear IF bit 0, clear IME, jump to vector 0x40 and push to
0xFFFC/0xFFFD — but the pushed word is 0x0151 = PC + 1, not the current PC
0x0150, because `CPU.rst` begins with `pc.inc()` although the opcode handler
already left PC at the next instruction. -/
theorem C3_dispatch_pushes_pc_plus_one :
    (interruptLadder c3state).pc = 0x40 ∧
    (interruptLadder c3state).ime = 0 ∧
    (interruptLadder c3state).ifReg = 0 ∧
    (interruptLadder c3state).sp = 0xFFFC ∧
    (interruptLadder c3state).mem 0xFFFC = 0x51 ∧
    (interruptLadder c3state).mem 0xFFFD = 0x01 ∧
    (interruptLadder c3state).mem 0xFFFC + 256 *
      (interruptLadder c3state).mem 0xFFFD ≠ c3state.pc := by
  decide

/-- The memory-bus state relevant to the interrupt-enable register: the
backing byte array of the high-RAM bank (offsets 0x00-0x7F relative to
0xFF80), and the `ie` / `if` register fields consulted by the interrupt
dispatch in `Gameboy.frame` (src/src/js/Memory.ts lines 60-61). -/
structure MemS where
  zram : Nat → Nat
  ie : Nat
  ifReg : Nat

/-- `Memory.write8` (src/src/js/Memory.ts lines 333-335) applied to the
high-RAM bank array: a plain byte store, no register side effect. -/
def Memory.write8zram (m : MemS) (offset v : Nat) : MemS :=
  { m with zram := setMem m.zram offset v }

/-- `Memory.zramWrite8` (src/src/js/Memory.ts lines 285-288): at bank offset
0x7F (absolute address 0xFFFF) it sets the `ie` register field instead of the
byte array.  This function exists in the source but is NEVER wired into the
bank table. -/
def Memory.zramWrite8 (m : MemS) (offset v : Nat) : MemS :=
  if offset = 0x7F then { m with ie := v } else Memory.write8zram m offset v

/-- `Memory.w8` (src/src/js/Memory.ts lines 313-317) restricted to the
high-RAM range 0xFF80-0xFFFF: `getSource` selects the `zram` bank, whose `w8`
field is wired to the PLAIN `write8` (line 70), not to `zramWrite8`.
Addresses of the other banks leave this projection of the state unchanged
(no other bank's write touches `zram` or `ie`; the MMIO write to IF is not
exercised by claim C4). -/
def Memory.w8 (m : MemS) (addr v : Nat) : MemS :=
  if 0xFF80 ≤ addr ∧ addr ≤ 0xFFFF then Memory.write8zram m (addr - 0xFF80) v
  else m

/-- A pending interrupt as tested by the dispatch ladder
(src/src/js/Gameboy.ts lines 95, 133-141): some bit of `IE & IF` among bits
0..4 is set. -/
def pendingInterrupt (m : MemS) : Bool :=
  m.ie &&& m.ifReg &&& 0x1F ≠ 0

/-- The reset bus state (ie = 0, Memory.ts lines 84-86) with the V-blank bit
already raised in IF. -/
def c4state : MemS := ⟨fun _ => 0, 0, 1⟩

/-- Claim C4 (code-bug exhibit).  Writing 0x01 to 0xFFFF through `w8` lands in
the high-RAM byte array (offset 0x7F) and leaves the `ie` register field — the
one consulted by interrupt dispatch — at 0, so no interrupt is pending even
though IF = 0x01 and the claim requires `(v & IF & 0x1F) != 0` to make one
pending.  The unwired `zramWrite8` would have set `ie`. -/
theorem C4_ie_write_not_wired :
    (Memory.w8 c4state 0xFFFF 1).ie = 0 ∧
    pendingInterrupt (Memory.w8 c4state 0xFFFF 1) = false ∧
    (Memory.w8 c4state 0xFFFF 1).zram 0x7F = 1 ∧
    (Memory.zramWrite8 c4state 0x7F 1).ie = 1 := by
  decide

/-- Modelled from the spec: `uint8.inc` is called by Timer.ts (and `uint8.dec`
below) but the `uint8` class under src has no such methods; the spec's
bit-width value model prescribes "8-bit and 16-bit unsigned integers with
wrapping arithmetic", so increment is modelled as wrapping addition mod 256. -/
def uint8inc (v n : Nat) : Nat := (v + n) % 256

/-- Modelled from the spec: wrapping 8-bit decrement, the `uint8.dec`
counterpart of `uint8inc` (Timer.ts calls `clock.sub.dec(4)`). -/
def uint8dec (v n : Nat) : Nat := (v + (256 - n % 256)) % 256

/-- The timer state (src/src/js/Timer.ts lines 4-31): DIV, TMA, TIMA, TAC, the
three sub-clocks, plus the interrupt-flag register that `Timer.step` raises
bit 2 in (`this.parent.Memory.if`). -/
structure TimerS where
  div : Nat
  tma : Nat
  tima : Nat
  tac : Nat
  clockMain : Nat
  clockSub : Nat
  clockDiv : Nat
  ifReg : Nat
deriving Repr, DecidableEq

/-- `Timer.step` (src/src/js/Timer.ts lines 33-40): increment TIMA, zero the
main clock; on wrap to 0, reload TIMA from TMA and set IF bit 2. -/
def Timer.step (t : TimerS) : TimerS :=
  let t1 := { t with tima := uint8inc t.tima 1, clockMain := 0 }
  if t1.tima = 0 then { t1 with tima := t1.tma, ifReg := t1.ifReg ||| 4 }
  else t1

/-- `Timer.inc` (src/src/js/Timer.ts lines 42-72): accumulate the instruction
cycles in the sub clock; once it exceeds 3, advance main and divider clocks
(DIV increments every 16 main ticks); when TAC bit 2 is set, call `step` once
the main clock reaches the threshold selected by TAC bits 1..0
({64, 1, 4, 16}). -/
def Timer.inc (t : TimerS) (instructionCycles : Nat) : TimerS :=
  let t1 := { t with clockSub := uint8inc t.clockSub instructionCycles }
  let t2 :=
    if t1.clockSub > 3 then
      let a := { t1 with clockMain := uint8inc t1.clockMain 1,
                         clockSub := uint8dec t1.clockSub 4,
                         clockDiv := uint8inc t1.clockDiv 1 }
      if a.clockDiv = 16 then { a with clockDiv := 0, div := uint8inc a.div 1 }
      else a
    else t1
  if t2.tac &&& 4 = 0 then t2
  else
    match t2.tac &&& 3 with
    | 0 => if t2.clockMain ≥ 64 then Timer.step t2 else t2
    | 1 => if t2.clockMain ≥ 1 then Timer.step t2 else t2
    | 2 => if t2.clockMain ≥ 4 then Timer.step t2 else t2
    | _ => if t2.clockMain ≥ 16 then Timer.step t2 else t2

/-- The reset timer state of claim C5: TAC = 0x05 (enabled, divider select 1),
TIMA = 0xFF, TMA = 0xAB, clocks zero, IF clear. -/
def c5state : TimerS := ⟨0, 0xAB, 0xFF, 5, 0, 0, 0, 0⟩

/-- Claim C5 counterexample.  Stepping the timer by ONE machine cycle from the
claim's start state changes nothing: the sub clock only reaches 1 (< 4), the
main clock stays 0 below the threshold 1, so TIMA is still 0xFF and IF bit 2
is still clear — the claim expects TIMA = 0xAB and IF bit 2 set. -/
theorem C5_one_cycle_no_overflow :
    (Timer.inc c5state 1).tima = 0xFF ∧
    (Timer.inc c5state 1).ifReg &&& 4 = 0 := by
  decide

/-- Claim C5 as amended.  Stepping the timer by an instruction costing FOUR
machine cycles from the same start state makes the sub clock reach 4, the main
clock reach the select-1 threshold, so TIMA increments, wraps 0xFF to 0x00, is
reloaded with TMA = 0xAB, and IF bit 2 is raised. -/
theorem C5_four_cycles_overflow :
    (Timer.inc c5state 4).tima = 0xAB ∧
    (Timer.inc c5state 4).ifReg &&& 4 = 4 := by
  decide

/-- The MMIO bank state relevant to the DIV register (src/src/js/Memory.ts):
the backing byte array of the 0xFF00-0xFF7F bank, the timer registers the
dispatch touches, and the IF register handled at offset 0x0F. -/
structure MmioS where
  mmioM : Nat → Nat
  timerDiv : Nat
  timerTima : Nat
  timerTma : Nat
  timerTac : Nat
  ifReg : Nat

/-- `Memory.mmioWrite8` (src/src/js/Memory.ts lines 174-278).  Offset 0x0F
returns early after setting IF.  Offsets 0x04-0x07 update the timer (a DIV
write zeroes `Timer.div` regardless of the value) and then FALL THROUGH to the
plain `write8` into the backing array, like every other offset.  The
0x40-0x49 branch updates GPU state not carried in this projection; its
fall-through store is included. -/
def Memory.mmioWrite8 (m : MmioS) (addr v : Nat) : MmioS :=
  if addr = 0x0F then { m with ifReg := v }
  else
    let m1 :=
      if addr = 0x04 then { m with timerDiv := 0 }
      else if addr = 0x05 then { m with timerTima := v }
      else if addr = 0x06 then { m with timerTma := v }
      else if addr = 0x07 then { m with timerTac := v &&& 7 }
      else m
    { m1 with mmioM := setMem m1.mmioM addr v }

/-- `Memory.mmioRead8` (src/src/js/Memory.ts lines 129-172).  Offset 0x0F
returns IF.  For offsets 0x04-0x07 the switch merely EVALUATES the timer
getters and discards them (`this.parent.Timer.div;`), so control falls through
to the plain `read8` of the backing array.  (The GPU register reads at
0x40-0x45 are omitted from this projection; they are disjoint from the DIV
offset this model is used for.) -/
def Memory.mmioRead8 (m : MmioS) (addr : Nat) : Nat :=
  if addr = 0x0F then m.ifReg
  else m.mmioM addr

/-- An MMIO state with a running divider (DIV = 7) and a clear backing
array. -/
def c6state : MmioS := ⟨fun _ => 0, 7, 0, 0, 0, 0⟩

/-- Claim C6 (code-bug exhibit).  Writing 5 to MMIO offset 0x04 (absolute
0xFF04) zeroes the timer's internal DIV register, but the write also stores
the raw byte 5 in the MMIO backing array and the read of 0xFF04 returns that
byte — 5, not the 0 the claim requires. -/
theorem C6_div_read_returns_written_byte :
    (Memory.mmioWrite8 c6state 0x04 5).timerDiv = 0 ∧
    Memory.mmioRead8 (Memory.mmioWrite8 c6state 0x04 5) 0x04 = 5 := by
  decide

/-- One entry of the GPU sprite-attribute cache (src/src/js/GPU.ts lines
25-34); Y and X hold `display − 16` / `display − 8` and can be negative. -/
structure SpriteEntry where
  y : Int
  x : Int
  tile : Nat
  palette : Nat
  flipX : Bool
  flipY : Bool
  priority : Nat
  index : Nat
deriving Repr, DecidableEq

/-- `GPU.reset`, sprite part (src/src/js/GPU.ts line 67): 40 fresh entries
with y = −16, x = −8 and their array index. -/
def GPU.resetSprites : List SpriteEntry :=
  (List.range 40).map (fun i => ⟨-16, -8, 0, 0, false, false, 0, i⟩)

/-- `GPU.updateSpriteData` (src/src/js/GPU.ts lines 189-210).  The entry index
is computed from the written VALUE — `const index = val.value >> 2;` — while
only the field selector uses the address (`addr.value & 3`). -/
def GPU.updateSpriteData (sd : List SpriteEntry) (addr v : Nat) :
    List SpriteEntry :=
  let index := v >>> 2
  if index < 40 then
    match sd.get? index with
    | none => sd
    | some e =>
      let e1 :=
        match addr &&& 3 with
        | 0 => { e with y := (v : Int) - 16 }
        | 1 => { e with x := (v : Int) - 8 }
        | 2 => { e with tile := v }
        | _ => { e with palette := if v &&& 0x10 ≠ 0 then 1 else 0,
                        flipX := v &&& 0x20 ≠ 0,
                        flipY := v &&& 0x40 ≠ 0,
                        priority := if v &&& 0x80 ≠ 0 then 1 else 0 }
      sd.set index e1
  else sd

/-- Claim C7 (code-bug exhibit).  Writing the byte 50 to OAM address 0xFE04
(bank offset 4, so entry 1, field Y per the claim) instead updates entry
50 >> 2 = 12: afterwards entry 1 still has its reset Y = −16 while entry 12's
Y became 50 − 16 = 34, because `updateSpriteData` derives the entry index from
the written value, not from the address. -/
theorem C7_sprite_index_from_value :
    (GPU.updateSpriteData GPU.resetSprites 4 50).get? 1 =
      some ⟨-16, -8, 0, 0, false, false, 0, 1⟩ ∧
    (GPU.updateSpriteData GPU.resetSprites 4 50).get? 12 =
      some ⟨34, -8, 0, 0, false, false, 0, 12⟩ := by
  decide

/-- The GPU tileset cache with JavaScript object identity made explicit:
`rows` is the store of row objects (each row is eight palette indices) and
`ptr` maps a (tile, row) slot to the id of the row object it references. -/
structure Tileset where
  rows : List (List Nat)
  ptr : Nat → Nat → Nat

/-- `GPU.reset`, tileset part (src/src/js/GPU.ts line 50):
`new Array(512).fill(new Array(8).fill(new Array(8).fill(0)))`.
`Array.prototype.fill` stores the SAME object in every slot, so the 512 tile
slots all hold one shared rows-array whose 8 slots all hold one shared row:
every (tile, row) pair references the single row object with id 0. -/
def GPU.resetTileset : Tileset :=
  { rows := [List.replicate 8 0], ptr := fun _ _ => 0 }

/-- Reading `tileset[tile][y][x]`: dereference the row object the slot points
at. -/
def tilesetAt (ts : Tileset) (tile y x : Nat) : Nat :=
  (ts.rows.getD (ts.ptr tile y) []).getD x 0

/-- `GPU.updateTile` (src/src/js/GPU.ts lines 178-187) over a VRAM byte store
`m` (addresses relative to 0x8000): even base address, tile = (base >> 4) &
511, row = (base >> 1) & 7, and the eight stores `tileset[tile][y][x] = lo +
2*hi` mutate the row OBJECT referenced by slot (tile, y), leaving the
reference structure unchanged. -/
def GPU.updateTile (ts : Tileset) (addr : Nat) (m : Nat → Nat) : Tileset :=
  let base := if addr % 2 = 1 then addr - 1 else addr
  let tile := (base >>> 4) &&& 511
  let y := (base >>> 1) &&& 7
  let newRow := (List.range 8).map (fun x =>
    (if m base &&& (1 <<< (7 - x)) ≠ 0 then 1 else 0) +
    (if m (base + 1) &&& (1 <<< (7 - x)) ≠ 0 then 2 else 0))
  { ts with rows := ts.rows.set (ts.ptr tile y) newRow }

/-- The VRAM byte store after writing 0xFF to 0x8000 (relative address 0). -/
def c8vram : Nat → Nat := setMem (fun _ => 0) 0 0xFF

/-- Claim C8 (code-bug exhibit).  Re-decoding after the VRAM write of 0xFF at
relative address 0 should only change tile 0, row 0.  Before the write the
cache reads 0 everywhere (e.g. tile 1, row 3, pixel 0); afterwards tile 0 row
0 pixel 0 is 1 as expected, but tile 1 row 3 pixel 0 ALSO reads 1, because
`GPU.reset` filled all 512 × 8 slots with one shared row object and the write
mutated it. -/
theorem C8_tileset_rows_aliased :
    tilesetAt GPU.resetTileset 1 3 0 = 0 ∧
    tilesetAt (GPU.updateTile GPU.resetTileset 0 c8vram) 0 0 0 = 1 ∧
    tilesetAt (GPU.updateTile GPU.resetTileset 0 c8vram) 1 3 0 = 1 := by
  decide

/-- CPU-and-bus state with JavaScript object identity made explicit for the
uint8 cells: `heap` is the store of uint8 objects (cell id ↦ byte value),
register A holds a REFERENCE to a heap cell (`Register` wraps a uint8 object),
and each memory slot holds a reference to a heap cell, because
`Memory.write8` (src/src/js/Memory.ts lines 333-335) stores the uint8 object
itself: `source[addr.value] = value;`. -/
structure HeapState where
  heap : List Nat
  regA : Nat
  hl : Nat
  memRef : Nat → Nat
  flags : CPUFlags
  pc : Nat
  cycles : Nat

/-- `Memory.write8` on this state: store the given cell reference at the
address (no copy of the byte is made). -/
def Memory.write8ref (s : HeapState) (addr cell : Nat) : HeapState :=
  { s with memRef := setMem s.memRef addr cell }

/-- `Memory.read8` (src/src/js/Memory.ts lines 325-327): dereference the
stored object and return its byte (`new uint8(source[addr.value].value)`). -/
def Memory.read8ref (s : HeapState) (addr : Nat) : Nat :=
  s.heap.getD (s.memRef addr) 0

/-- Opcode handler `ops['22']`, LDI (HL), A (src/src/js/CPU.ts lines
1443-1449): `w8(HL, A-object)`, then HL + 1, two cycles, PC + 1. -/
def CPU.op22 (s : HeapState) : HeapState :=
  let s1 := Memory.write8ref s s.hl s.regA
  { s1 with hl := (s1.hl + 1) % 65536, pc := (s1.pc + 1) % 65536,
            cycles := s1.cycles + 2 }

/-- The flag-and-value part of opcode handler `ops['27']`, DAA
(src/src/js/CPU.ts lines 1998-2025), as a function of the current flags and
the byte in A; the sequencing of the in-place updates of A is preserved. -/
def CPU.daa (f : CPUFlags) (a : Nat) : CPUFlags × Nat :=
  if f.subtraction = 0 then
    let p :=
      if f.carry ≠ 0 ∨ a > 0x99 then ((a + 0x60) % 256, 1)
      else (a, f.carry)
    let q :=
      if f.halfCarry ≠ 0 ∨ p.1 % 16 > 0x9 then ((p.1 + 0x06) % 256, 0)
      else (p.1, f.halfCarry)
    (⟨if q.1 = 0 then 1 else 0, f.subtraction, q.2, p.2⟩, q.1)
  else if f.carry ≠ 0 ∧ f.halfCarry ≠ 0 then
    let a1 := (a + 0x9A) % 256
    (⟨if a1 = 0 then 1 else 0, f.subtraction, 0, f.carry⟩, a1)
  else if f.carry ≠ 0 then
    let a1 := (a + 0xA0) % 256
    (⟨if a1 = 0 then 1 else 0, f.subtraction, f.halfCarry, f.carry⟩, a1)
  else if f.halfCarry ≠ 0 then
    let a1 := (a + 0xFA) % 256
    (⟨if a1 = 0 then 1 else 0, f.subtraction, 0, f.carry⟩, a1)
  else
    (⟨if a = 0 then 1 else 0, f.subtraction, f.halfCarry, f.carry⟩, a)

/-- Opcode handler `ops['27']` on the heap state: DAA writes the adjusted
byte back through `this.registers.a.value.value = ...`, i.e. it MUTATES the
uint8 object register A refers to; it performs no memory write. -/
def CPU.op27 (s : HeapState) : HeapState :=
  let r := CPU.daa s.flags (s.heap.getD s.regA 0)
  { s with heap := s.heap.set s.regA r.2, flags := r.1,
           pc := (s.pc + 1) % 65536, cycles := s.cycles + 1 }

/-- The start state of the C9 exhibit: cell 0 is the shared zero uint8 all
memory slots reference after reset, cell 1 is register A's uint8 holding
0x0A; HL = 0xC000 (work RAM), flags clear. -/
def c9state : HeapState :=
  ⟨[0, 0x0A], 1, 0xC000, fun _ => 0, ⟨0, 0, 0, 0⟩, 0x0200, 0⟩

/-- Claim C9 (code-bug exhibit).  After LDI (HL),A the byte read back at
0xC000 is 0x0A as stored.  Then DAA — an instruction that performs NO memory
write — adjusts A from 0x0A to 0x10 by mutating A's uint8 object in place;
since `write8` stored that very object, the byte at 0xC000 now reads 0x10,
not the 0x0A the claim requires. -/
theorem C9_memory_aliases_register :
    Memory.read8ref (CPU.op22 c9state) 0xC000 = 0x0A ∧
    (CPU.op27 (CPU.op22 c9state)).heap.getD
      (CPU.op27 (CPU.op22 c9state)).regA 0 = 0x10 ∧
    Memory.read8ref (CPU.op27 (CPU.op22 c9state)) 0xC000 = 0x10 := by
  decide

/-- The 243 keys of the primary dispatch table `ops` built by
`generateOpsMap` in the first revision of src/src/js/CPU.ts (lines 389-2083),
as opcode bytes.  (`Gameboy.frame` upper-cases the fetched byte's hex string
before the lookup, matching these keys.) -/
def primaryOpcodes : List Nat :=
  [0x00, 0x01, 0x02, 0x03, 0x04, 0x05, 0x06, 0x07, 0x08, 0x09, 0x0A, 0x0B,
   0x0C, 0x0D, 0x0E, 0x10, 0x11, 0x12, 0x13, 0x14, 0x15, 0x16, 0x17, 0x18,
   0x19, 0x1A, 0x1B, 0x1C, 0x1D, 0x1E, 0x20, 0x21, 0x22, 0x23, 0x24, 0x25,
   0x26, 0x27, 0x28, 0x29, 0x2A, 0x2B, 0x2C, 0x2D, 0x2E, 0x2F, 0x30, 0x31,
   0x32, 0x33, 0x34, 0x35, 0x36, 0x37, 0x38, 0x39, 0x3A, 0x3B, 0x3C, 0x3D,
   0x3E, 0x3F, 0x40, 0x41, 0x42, 0x43, 0x44, 0x45, 0x46, 0x47, 0x48, 0x49,
   0x4A, 0x4B, 0x4C, 0x4D, 0x4E, 0x4F, 0x50, 0x51, 0x52, 0x53, 0x54, 0x55,
   0x56, 0x57, 0x58, 0x59, 0x5A, 0x5B, 0x5C, 0x5D, 0x5E, 0x5F, 0x60, 0x61,
   0x62, 0x63, 0x64, 0x65, 0x66, 0x67, 0x68, 0x69, 0x6A, 0x6B, 0x6C, 0x6D,
   0x6E, 0x6F, 0x70, 0x71, 0x72, 0x73, 0x74, 0x75, 0x76, 0x77, 0x78, 0x79,
   0x7A, 0x7B, 0x7C, 0x7D, 0x7E, 0x7F, 0x80, 0x81, 0x82, 0x83, 0x84, 0x85,
   0x86, 0x87, 0x88, 0x89, 0x8A, 0x8B, 0x8C, 0x8D, 0x8E, 0x8F, 0x90, 0x91,
   0x92, 0x93, 0x94, 0x95, 0x96, 0x97, 0x98, 0x99, 0x9A, 0x9B, 0x9C, 0x9D,
   0x9E, 0x9F, 0xA0, 0xA1, 0xA2, 0xA3, 0xA4, 0xA5, 0xA6, 0xA7, 0xA8, 0xA9,
   0xAA, 0xAB, 0xAC, 0xAD, 0xAE, 0xAF, 0xB0, 0xB1, 0xB2, 0xB3, 0xB4, 0xB5,
   0xB6, 0xB7, 0xB8, 0xB9, 0xBA, 0xBB, 0xBC, 0xBD, 0xBE, 0xBF, 0xC0, 0xC1,
   0xC2, 0xC3, 0xC4, 0xC5, 0xC6, 0xC7, 0xC8, 0xC9, 0xCA, 0xCB, 0xCC, 0xCD,
   0xCE, 0xCF, 0xD0, 0xD1, 0xD2, 0xD4, 0xD5, 0xD6, 0xD7, 0xD8, 0xD9, 0xDA,
   0xDC, 0xDE, 0xDF, 0xE0, 0xE1, 0xE2, 0xE5, 0xE6, 0xE7, 0xE8, 0xE9, 0xEA,
   0xEE, 0xEF, 0xF0, 0xF1, 0xF2, 0xF3, 0xF5, 0xF6, 0xF7, 0xF8, 0xF9, 0xFA,
   0xFB, 0xFE, 0xFF]

/-- The fatal error kinds of the driver (spec names; `Gameboy.frame` throws
`Missing opcode` for the first and `CPU Stopped.` for the second). -/
inductive FatalError where
  | UnknownOpcode (b : Nat)
  | CpuStopped
deriving Repr, DecidableEq

/-- The opcode-lookup step of `Gameboy.frame` (src/src/js/Gameboy.ts lines
66-68): `if (!this.CPU.ops[opcode]) throw ...`. -/
def fetchDispatch (b : Nat) : Except FatalError Unit :=
  if b ∈ primaryOpcodes then Except.ok () else
    Except.error (FatalError.UnknownOpcode b)

/-- The driver: `run` models the live `setInterval` handle, `frames` counts
completed frames. -/
structure Driver where
  run : Bool
  frames : Nat
deriving Repr, DecidableEq

/-- One `Gameboy.frame` invocation whose first fetch hits opcode byte `b`
(src/src/js/Gameboy.ts lines 57-131): a stopped driver does nothing; a
missing opcode throws, is caught, and `clearInterval(this.run)` stops the
driver (lines 127-130); otherwise the frame completes. -/
def Gameboy.frame (b : Nat) (d : Driver) : Driver :=
  if d.run then
    match fetchDispatch b with
    | Except.ok _ => { d with frames := d.frames + 1 }
    | Except.error _ => { d with run := false }
  else d

/-- The eleven unmapped primary opcodes of claim C10. -/
def unmappedOpcodes : List Nat :=
  [0xD3, 0xDB, 0xDD, 0xE3, 0xE4, 0xEB, 0xEC, 0xED, 0xF4, 0xFC, 0xFD]

/-- Claim C10.  Every one of the eleven unmapped primary opcodes has no entry
in the primary dispatch table, so fetching it raises the fatal UnknownOpcode
error; the frame in which this happens completes no frame and clears the run
interval, and from then on no further frame is produced, whatever opcode the
memory would deliver next. -/
theorem C10_unmapped_opcodes_fatal (b : Nat) (hb : b ∈ unmappedOpcodes)
    (d : Driver) :
    fetchDispatch b = Except.error (FatalError.UnknownOpcode b) ∧
    (Gameboy.frame b d).run = false ∧
    (Gameboy.frame b d).frames = d.frames ∧
    ∀ c : Nat, Gameboy.frame c (Gameboy.frame b d) = Gameboy.frame b d := by
  have hnb : b ∉ primaryOpcodes := by fin_cases hb <;> decide
  have hfd : fetchDispatch b = Except.error (FatalError.UnknownOpcode b) := by
    simp [fetchDispatch, hnb]
  refine ⟨hfd, ?_, ?_, ?_⟩
  · cases d with
    | mk run frames => cases run <;> simp [Gameboy.frame, hfd]
  · cases d with
    | mk run frames => cases run <;> simp [Gameboy.frame, hfd]
  · intro c
    cases d with
    | mk run frames => cases run <;> simp [Gameboy.frame, hfd]

/-- Witness for C10: opcode 0xD3 on a freshly running driver — the lookup
fails fatally, the driver stops with zero frames, and a further frame attempt
(here with the valid opcode 0xC3) changes nothing. -/
theorem C10_unmapped_opcodes_fatal_witness :
    fetchDispatch 0xD3 = Except.error (FatalError.UnknownOpcode 0xD3) ∧
    (Gameboy.frame 0xD3 ⟨true, 0⟩).run = false ∧
    (Gameboy.frame 0xD3 ⟨true, 0⟩).frames = 0 ∧
    Gameboy.frame 0xC3 (Gameboy.frame 0xD3 ⟨true, 0⟩) =
      Gameboy.frame 0xD3 ⟨true, 0⟩ :=
  ⟨(C10_unmapped_opcodes_fatal 0xD3 (by decide) ⟨true, 0⟩).1,
   (C10_unmapped_opcodes_fatal 0xD3 (by decide) ⟨true, 0⟩).2.1,
   (C10_unmapped_opcodes_fatal 0xD3 (by decide) ⟨true, 0⟩).2.2.1,
   (C10_unmapped_opcodes_fatal 0xD3 (by decide) ⟨true, 0⟩).2.2.2 0xC3⟩
